import Mathlib

/-!
Verification of the Intersight Master Node foundation driver
(create_intersight_foundation.py) against its natural-language
specification.  The Python program is shallowly embedded: the Intersight
endpoint is a record of object lists ("ISState"), every REST create call
is an event of the "ApiCall" alphabet, and the possibility that a create
call raises is captured by a schedule "sched : Nat -> Bool" consulted at
the MOID counter of the state (true means the call succeeds).
List calls are modelled as pure reads of the state.
-/

namespace Intersight

/-- An organization object, as returned by the organization list API. -/
structure Org where
  name : String
  moid : Nat
deriving Repr, DecidableEq

/-- A MAC or UUID pool object: pools carry an organization reference. -/
structure Pool where
  name : String
  orgMoid : Nat
  moid : Nat
deriving Repr, DecidableEq

/-- A generic named policy object (BIOS, QoS, adapter, network group,
LAN connectivity, boot, storage). -/
structure Policy where
  name : String
  moid : Nat
deriving Repr, DecidableEq

/-- A vNIC ethernet interface: it references its LAN connectivity policy
by MOID, mirroring vnic.EthIf.lan_connectivity_policy. -/
structure EthIf where
  name : String
  lanMoid : Nat
  moid : Nat
deriving Repr, DecidableEq

/-- A server profile template object. -/
structure Template where
  name : String
  moid : Nat
deriving Repr, DecidableEq

/-- A physical rack server object. -/
structure Server where
  name : String
  moid : Nat
deriving Repr, DecidableEq

/-- A server profile object; srcTemplate is the attached template
reference, when any. -/
structure Profile where
  name : String
  moid : Nat
  srcTemplate : Option Nat
deriving Repr, DecidableEq

/-- The observable Intersight endpoint state: one list per object type
the script touches, plus a counter supplying fresh MOIDs. -/
structure ISState where
  orgs : List Org
  macPools : List Pool
  uuidPools : List Pool
  biosPolicies : List Policy
  qosPolicies : List Policy
  ethAdapterPolicies : List Policy
  netGroupPolicies : List Policy
  lanConnPolicies : List Policy
  bootPolicies : List Policy
  storagePolicies : List Policy
  ethIfs : List EthIf
  templates : List Template
  servers : List Server
  profiles : List Profile
  nextMoid : Nat
deriving Repr, DecidableEq

/-- The alphabet of mutating API requests the script can issue, plus the
two local-function invocation markers used to count entries into the
pool-creation path.  The deployServerProfile constructor is part of the
alphabet precisely so that its absence from every trace is expressible. -/
inductive ApiCall where
  | invokeCreateMacPool (poolName : String)
  | invokeCreateUuidPool (poolName : String)
  | createMacPool (poolName : String)
  | createUuidPool (poolName : String)
  | createBiosPolicy (name : String)
  | createQosPolicy (name : String)
  | createEthAdapterPolicy (name : String)
  | createNetworkGroupPolicy (name : String)
  | createLanConnectivityPolicy (name : String)
  | createEthIf (name : String) (switchId : String)
  | createBootPolicy (name : String)
  | createStoragePolicy (name : String)
  | createServerTemplate (name : String)
  | createServerProfile (name : String)
  | updateServerProfile (moid : Nat)
  | deployServerProfile (moid : Nat)
deriving Repr, DecidableEq

/-- Embedding of get_org_moid: list organizations filtered by name and
return the MOID of the first result; the Python function raises when the
filtered list is empty, which we render as Except.error. -/
def get_org_moid (s : ISState) (orgName : String) : Except String Nat :=
  match s.orgs.filter (fun o => o.name = orgName) with
  | [] => Except.error ("Organization not found: " ++ orgName)
  | o :: _ => Except.ok o.moid

/-- Embedding of pool_exists: resolve the hard-coded "Gruve" organization
(the raised exception from get_org_moid is swallowed and becomes false),
then list the pool type filtered by name and organization MOID and test
for a nonempty result; unsupported pool types yield false. -/
def pool_exists (s : ISState) (poolType poolName : String) : Bool :=
  match get_org_moid s "Gruve" with
  | Except.error _ => false
  | Except.ok orgMoid =>
    if poolType = "MAC Pool" then
      !(s.macPools.filter (fun p => p.name = poolName && p.orgMoid == orgMoid)).isEmpty
    else if poolType = "UUID Pool" then
      !(s.uuidPools.filter (fun p => p.name = poolName && p.orgMoid == orgMoid)).isEmpty
    else false

/-- Embedding of create_mac_pool: resolve "Gruve", then issue the MAC
pool create call; the call itself may fail (exception), in which case the
state is unchanged but the call was still issued. -/
def create_mac_pool (s : ISState) (sched : Nat → Bool) (poolName : String) :
    Bool × List ApiCall × ISState :=
  match get_org_moid s "Gruve" with
  | Except.error _ => (false, [], s)
  | Except.ok orgMoid =>
    if sched s.nextMoid then
      (true, [ApiCall.createMacPool poolName],
        { s with
            macPools := s.macPools ++ [{ name := poolName, orgMoid := orgMoid, moid := s.nextMoid }],
            nextMoid := s.nextMoid + 1 })
    else
      (false, [ApiCall.createMacPool poolName], s)

/-- Embedding of create_uuid_pool, structurally identical to the MAC
pool case. -/
def create_uuid_pool (s : ISState) (sched : Nat → Bool) (poolName : String) :
    Bool × List ApiCall × ISState :=
  match get_org_moid s "Gruve" with
  | Except.error _ => (false, [], s)
  | Except.ok orgMoid =>
    if sched s.nextMoid then
      (true, [ApiCall.createUuidPool poolName],
        { s with
            uuidPools := s.uuidPools ++ [{ name := poolName, orgMoid := orgMoid, moid := s.nextMoid }],
            nextMoid := s.nextMoid + 1 })
    else
      (false, [ApiCall.createUuidPool poolName], s)

/-- Embedding of create_pool: re-check existence, then dispatch on the
pool type; entering create_mac_pool or create_uuid_pool is recorded by an
invocation marker so invocations of the creation path can be counted. -/
def create_pool (s : ISState) (sched : Nat → Bool) (poolType poolName : String) :
    Bool × List ApiCall × ISState :=
  if pool_exists s poolType poolName then (true, [], s)
  else if poolType = "MAC Pool" then
    let r := create_mac_pool s sched poolName
    (r.1, ApiCall.invokeCreateMacPool poolName :: r.2.1, r.2.2)
  else if poolType = "UUID Pool" then
    let r := create_uuid_pool s sched poolName
    (r.1, ApiCall.invokeCreateUuidPool poolName :: r.2.1, r.2.2)
  else (false, [], s)

/-- How the driver loop records the outcome of one Pools-sheet row. -/
inductive RowReport where
  | successAlreadyExists (entry : String)
  | successCreated (entry : String)
  | failed (entry : String)
deriving Repr, DecidableEq

/-- Embedding of the per-row Pools loop of process_foundation_template:
check pool_exists first and report success with an "(already exists)"
entry without calling create_pool, otherwise call create_pool once. -/
def processPoolRow (s : ISState) (sched : Nat → Bool) (poolType poolName : String) :
    RowReport × List ApiCall × ISState :=
  if pool_exists s poolType poolName then
    (RowReport.successAlreadyExists (poolName ++ " (already exists)"), [], s)
  else
    let r := create_pool s sched poolType poolName
    if r.1 then (RowReport.successCreated poolName, r.2.1, r.2.2)
    else (RowReport.failed poolName, r.2.1, r.2.2)

/-- Tests whether an event marks entry into create_mac_pool or
create_uuid_pool, the pool-creation path of the script. -/
def ApiCall.isPoolPathInvocation : ApiCall → Bool
  | ApiCall.invokeCreateMacPool _ => true
  | ApiCall.invokeCreateUuidPool _ => true
  | _ => false

/-- C1: for every Pools-sheet row, if the pre-create existence check
pool_exists reports a pool with the same name and organization already
present then the pool-creation path (create_mac_pool / create_uuid_pool)
is not invoked (the trace is empty) and the row is reported successful
with an "(already exists)" entry; otherwise the creation path is invoked
exactly once for that row. -/
theorem c1_pools_row_existence_gate (s : ISState) (sched : Nat → Bool)
    (poolType poolName : String)
    (hty : poolType = "MAC Pool" ∨ poolType = "UUID Pool") :
    (pool_exists s poolType poolName = true →
      processPoolRow s sched poolType poolName =
        (RowReport.successAlreadyExists (poolName ++ " (already exists)"), [], s)) ∧
    (pool_exists s poolType poolName = false →
      ((processPoolRow s sched poolType poolName).2.1.countP
        ApiCall.isPoolPathInvocation) = 1) := by
  constructor
  · intro h
    simp [processPoolRow, h]
  · intro h
    rcases hty with hty | hty <;> subst hty <;>
      simp only [processPoolRow, create_pool, h, if_false, Bool.false_eq_true,
        reduceIte] <;>
      rcases horg : get_org_moid s "Gruve" with msg | orgMoid <;>
      simp [create_mac_pool, create_uuid_pool, horg, List.countP_cons,
        ApiCall.isPoolPathInvocation] <;>
      rcases hs : sched s.nextMoid <;>
      simp [List.countP_cons, ApiCall.isPoolPathInvocation]

/-- A small concrete endpoint state with just the "Gruve" organization,
used to instantiate witness theorems. -/
def sampleState : ISState :=
  { orgs := [{ name := "Gruve", moid := 1 }]
    macPools := []
    uuidPools := []
    biosPolicies := []
    qosPolicies := []
    ethAdapterPolicies := []
    netGroupPolicies := []
    lanConnPolicies := []
    bootPolicies := []
    storagePolicies := []
    ethIfs := []
    templates := []
    servers := []
    profiles := []
    nextMoid := 10 }

/-- Witness for C1 at a concrete MAC Pool row that does not yet exist. -/
theorem c1_pools_row_existence_gate_witness :
    pool_exists sampleState "MAC Pool" "pool-A" = false ∧
    ((processPoolRow sampleState (fun _ => true) "MAC Pool" "pool-A").2.1.countP
      ApiCall.isPoolPathInvocation) = 1 :=
  ⟨by decide,
   (c1_pools_row_existence_gate sampleState (fun _ => true) "MAC Pool" "pool-A"
      (Or.inl rfl)).2 (by decide)⟩

/-- Name of the dependent ethernet adapter policy created for a vNIC
row, as built by the f-string in the source. -/
def mkEthAdapterName (policyName : String) : String := policyName ++ "-eth-adapter"

/-- Name of the fabric-A network group policy created for a vNIC row. -/
def mkNetGroupAName (policyName : String) : String := policyName ++ "-network-group-A"

/-- Name of the fabric-B network group policy created for a vNIC row. -/
def mkNetGroupBName (policyName : String) : String := policyName ++ "-network-group-B"

/-- Name of the eth0 interface, prefixed onto the LAN policy name. -/
def mkEth0Name (lanName : String) : String := "eth0_" ++ lanName

/-- Name of the eth1 interface, prefixed onto the LAN policy name. -/
def mkEth1Name (lanName : String) : String := "eth1_" ++ lanName

/-- Embedding of check_vnic_exists: list ethernet interfaces filtered by
name, then scan the results for one attached to the given LAN
connectivity policy MOID. -/
def check_vnic_exists (s : ISState) (vnicName : String) (lanMoid : Nat) : Bool :=
  (s.ethIfs.filter (fun v => v.name = vnicName)).any (fun v => v.lanMoid == lanMoid)

/-- Embedding of the vNIC branch of create_policy: resolve "Gruve", then
create the ethernet adapter policy, the two fabric network-group
policies (A then B), the LAN connectivity policy, and the two ethernet
interfaces eth0 (fabric A, guarded by check_vnic_exists) and eth1
(fabric B, guarded likewise).  A failing call raises: the function
returns false at that point and nothing already created is removed. -/
def create_policy_vnic (s : ISState) (sched : Nat → Bool) (policyName : String) :
    Bool × List ApiCall × ISState :=
  match get_org_moid s "Gruve" with
  | Except.error _ => (false, [], s)
  | Except.ok _orgMoid =>
    let aName := mkEthAdapterName policyName
    let e1 := ApiCall.createEthAdapterPolicy aName
    if sched s.nextMoid = false then (false, [e1], s) else
    let s1 : ISState := { s with
      ethAdapterPolicies := s.ethAdapterPolicies ++ [{ name := aName, moid := s.nextMoid }],
      nextMoid := s.nextMoid + 1 }
    let gaName := mkNetGroupAName policyName
    let e2 := ApiCall.createNetworkGroupPolicy gaName
    if sched s1.nextMoid = false then (false, [e1, e2], s1) else
    let s2 : ISState := { s1 with
      netGroupPolicies := s1.netGroupPolicies ++ [{ name := gaName, moid := s1.nextMoid }],
      nextMoid := s1.nextMoid + 1 }
    let gbName := mkNetGroupBName policyName
    let e3 := ApiCall.createNetworkGroupPolicy gbName
    if sched s2.nextMoid = false then (false, [e1, e2, e3], s2) else
    let s3 : ISState := { s2 with
      netGroupPolicies := s2.netGroupPolicies ++ [{ name := gbName, moid := s2.nextMoid }],
      nextMoid := s2.nextMoid + 1 }
    let e4 := ApiCall.createLanConnectivityPolicy policyName
    if sched s3.nextMoid = false then (false, [e1, e2, e3, e4], s3) else
    let lanMoid := s3.nextMoid
    let s4 : ISState := { s3 with
      lanConnPolicies := s3.lanConnPolicies ++ [{ name := policyName, moid := lanMoid }],
      nextMoid := s3.nextMoid + 1 }
    let eth0Name := mkEth0Name policyName
    let eth1Name := mkEth1Name policyName
    if check_vnic_exists s4 eth0Name lanMoid then
      if check_vnic_exists s4 eth1Name lanMoid then (true, [e1, e2, e3, e4], s4) else
      let e6 := ApiCall.createEthIf eth1Name "B"
      if sched s4.nextMoid = false then (false, [e1, e2, e3, e4, e6], s4) else
      (true, [e1, e2, e3, e4, e6], { s4 with
        ethIfs := s4.ethIfs ++ [{ name := eth1Name, lanMoid := lanMoid, moid := s4.nextMoid }],
        nextMoid := s4.nextMoid + 1 })
    else
      let e5 := ApiCall.createEthIf eth0Name "A"
      if sched s4.nextMoid = false then (false, [e1, e2, e3, e4, e5], s4) else
      let s5 : ISState := { s4 with
        ethIfs := s4.ethIfs ++ [{ name := eth0Name, lanMoid := lanMoid, moid := s4.nextMoid }],
        nextMoid := s4.nextMoid + 1 }
      if check_vnic_exists s5 eth1Name lanMoid then (true, [e1, e2, e3, e4, e5], s5) else
      let e6 := ApiCall.createEthIf eth1Name "B"
      if sched s5.nextMoid = false then (false, [e1, e2, e3, e4, e5, e6], s5) else
      (true, [e1, e2, e3, e4, e5, e6], { s5 with
        ethIfs := s5.ethIfs ++ [{ name := eth1Name, lanMoid := lanMoid, moid := s5.nextMoid }],
        nextMoid := s5.nextMoid + 1 })

/-- The full creation-call sequence of a successful vNIC row. -/
def vnicFullTrace (policyName : String) : List ApiCall :=
  [ApiCall.createEthAdapterPolicy (mkEthAdapterName policyName),
   ApiCall.createNetworkGroupPolicy (mkNetGroupAName policyName),
   ApiCall.createNetworkGroupPolicy (mkNetGroupBName policyName),
   ApiCall.createLanConnectivityPolicy policyName,
   ApiCall.createEthIf (mkEth0Name policyName) "A",
   ApiCall.createEthIf (mkEth1Name policyName) "B"]

/-- The object a creation call stands for is present in the state:
used to express that earlier creations are not rolled back. -/
def callPersisted : ApiCall → ISState → Bool
  | ApiCall.createEthAdapterPolicy n, s => s.ethAdapterPolicies.any (fun p => p.name == n)
  | ApiCall.createNetworkGroupPolicy n, s => s.netGroupPolicies.any (fun p => p.name == n)
  | ApiCall.createLanConnectivityPolicy n, s => s.lanConnPolicies.any (fun p => p.name == n)
  | ApiCall.createEthIf n _, s => s.ethIfs.any (fun v => v.name == n)
  | ApiCall.createMacPool n, s => s.macPools.any (fun p => p.name == n)
  | ApiCall.createUuidPool n, s => s.uuidPools.any (fun p => p.name == n)
  | ApiCall.createBiosPolicy n, s => s.biosPolicies.any (fun p => p.name == n)
  | ApiCall.createQosPolicy n, s => s.qosPolicies.any (fun p => p.name == n)
  | ApiCall.createBootPolicy n, s => s.bootPolicies.any (fun p => p.name == n)
  | ApiCall.createStoragePolicy n, s => s.storagePolicies.any (fun p => p.name == n)
  | ApiCall.createServerTemplate n, s => s.templates.any (fun t => t.name == n)
  | ApiCall.createServerProfile n, s => s.profiles.any (fun p => p.name == n)
  | _, _ => true

/-- The eth0 and eth1 interface names of one LAN policy differ. -/
theorem mkEth0Name_ne_mkEth1Name (p : String) : mkEth0Name p ≠ mkEth1Name p := by
  intro h
  have hd := congrArg String.data h
  simp only [mkEth0Name, mkEth1Name, String.data_append] at hd
  simp at hd

/-- On a state whose ethernet interfaces all reference LAN policies
below the given MOID, check_vnic_exists is false for that MOID. -/
theorem check_vnic_exists_of_fresh (s : ISState) (nm : String) (lan : Nat)
    (h : ∀ v ∈ s.ethIfs, v.lanMoid < lan) :
    check_vnic_exists s nm lan = false := by
  simp only [check_vnic_exists, List.any_eq_false]
  intro v hv
  have hmem := List.mem_of_mem_filter hv
  simp only [beq_iff_eq]
  exact Nat.ne_of_lt (h v hmem)

/-- List-level form of the freshness argument: no interface whose LAN
reference is below the fresh MOID can witness the existence check. -/
theorem any_filter_lan_eq_false (l : List EthIf) (nm : String) (lan : Nat)
    (h : ∀ v ∈ l, v.lanMoid < lan) :
    ((l.filter (fun v => v.name = nm)).any (fun v => v.lanMoid == lan)) = false := by
  simp only [List.any_eq_false]
  intro v hv
  have hmem := List.mem_of_mem_filter hv
  simp only [beq_iff_eq]
  exact Nat.ne_of_lt (h v hmem)

/-- Appending an interface under a different name does not change the
existence check for this name, so the check stays false. -/
theorem any_filter_lan_append_eq_false (l : List EthIf) (nm nm2 : String) (lan m : Nat)
    (h : ∀ v ∈ l, v.lanMoid < lan) (hne : nm2 ≠ nm) :
    (((l ++ [({ name := nm2, lanMoid := lan, moid := m } : EthIf)]).filter
        (fun v => v.name = nm)).any (fun v => v.lanMoid == lan)) = false := by
  simp only [List.any_eq_false]
  intro v hv
  have hmem := List.mem_of_mem_filter hv
  have hname : v.name = nm := by
    have := List.of_mem_filter hv
    simpa using this
  rcases List.mem_append.mp hmem with hl | hr
  · simp only [beq_iff_eq]
    exact Nat.ne_of_lt (h v hl)
  · simp only [List.mem_singleton] at hr
    subst hr
    simp only [EthIf.name] at hname
    exact absurd hname hne

/-- C2: for a vNIC policy row, a successful run of create_policy issues
exactly one ethernet adapter policy create, then the fabric-A and
fabric-B network-group policy creates, then the LAN connectivity policy
create, then the eth0 (fabric A) and eth1 (fabric B) interface creates,
in that order; every run issues a prefix of that sequence, and the
objects created by steps before a failing step persist in the final
state (no rollback). -/
theorem c2_vnic_creation_order_no_rollback (s : ISState) (sched : Nat → Bool)
    (policyName : String) (hwf : ∀ v ∈ s.ethIfs, v.lanMoid < s.nextMoid) :
    ((create_policy_vnic s sched policyName).1 = true →
      (create_policy_vnic s sched policyName).2.1 = vnicFullTrace policyName) ∧
    (create_policy_vnic s sched policyName).2.1 <+: vnicFullTrace policyName ∧
    (∀ c ∈ (create_policy_vnic s sched policyName).2.1.dropLast,
      callPersisted c (create_policy_vnic s sched policyName).2.2 = true) ∧
    ((create_policy_vnic s sched policyName).1 = true →
      ∀ c ∈ (create_policy_vnic s sched policyName).2.1,
        callPersisted c (create_policy_vnic s sched policyName).2.2 = true) := by
  have hwf3 : ∀ v ∈ s.ethIfs, v.lanMoid < s.nextMoid + 1 + 1 + 1 := by
    intro v hv
    have := hwf v hv
    omega
  have hc0 := any_filter_lan_eq_false s.ethIfs (mkEth0Name policyName)
      (s.nextMoid + 1 + 1 + 1) hwf3
  have hc1 := any_filter_lan_eq_false s.ethIfs (mkEth1Name policyName)
      (s.nextMoid + 1 + 1 + 1) hwf3
  have hc2 := any_filter_lan_append_eq_false s.ethIfs (mkEth1Name policyName)
      (mkEth0Name policyName) (s.nextMoid + 1 + 1 + 1) (s.nextMoid + 1 + 1 + 1 + 1)
      hwf3 (mkEth0Name_ne_mkEth1Name policyName)
  have hne := mkEth0Name_ne_mkEth1Name policyName
  rcases horg : get_org_moid s "Gruve" with msg | om
  · simp [create_policy_vnic, horg, List.nil_prefix]
  · rcases h0 : sched s.nextMoid with _ | _
    · simp [create_policy_vnic, horg, h0, vnicFullTrace, callPersisted,
        List.cons_prefix_cons, List.nil_prefix, List.dropLast]
    · rcases h1 : sched (s.nextMoid + 1) with _ | _
      · simp [create_policy_vnic, horg, h0, h1, vnicFullTrace, callPersisted,
          List.cons_prefix_cons, List.nil_prefix, List.dropLast]
      · rcases h2 : sched (s.nextMoid + 1 + 1) with _ | _
        · simp [create_policy_vnic, horg, h0, h1, h2, vnicFullTrace, callPersisted,
            List.cons_prefix_cons, List.nil_prefix, List.dropLast]
        · rcases h3 : sched (s.nextMoid + 1 + 1 + 1) with _ | _
          · simp [create_policy_vnic, horg, h0, h1, h2, h3, vnicFullTrace, callPersisted,
              List.cons_prefix_cons, List.nil_prefix, List.dropLast]
          · rcases h4 : sched (s.nextMoid + 1 + 1 + 1 + 1) with _ | _
            · simp [create_policy_vnic, horg, h0, h1, h2, h3, h4, hc0, hc1, hc2, hne,
                check_vnic_exists, vnicFullTrace, callPersisted,
                List.cons_prefix_cons, List.nil_prefix, List.dropLast]
            · rcases h5 : sched (s.nextMoid + 1 + 1 + 1 + 1 + 1) with _ | _
              · simp [create_policy_vnic, horg, h0, h1, h2, h3, h4, h5, hc0, hc1, hc2, hne,
                  check_vnic_exists, vnicFullTrace, callPersisted,
                  List.cons_prefix_cons, List.nil_prefix, List.dropLast]
              · simp [create_policy_vnic, horg, h0, h1, h2, h3, h4, h5, hc0, hc1, hc2, hne,
                  check_vnic_exists, vnicFullTrace, callPersisted,
                  List.cons_prefix_cons, List.nil_prefix, List.dropLast]

/-- Witness for C2 at a concrete state and an always-succeeding
schedule: the trace is the full six-call sequence. -/
theorem c2_vnic_creation_order_no_rollback_witness :
    (∀ v ∈ sampleState.ethIfs, v.lanMoid < sampleState.nextMoid) ∧
    ((create_policy_vnic sampleState (fun _ => true) "Ai-vNIC").1 = true →
      (create_policy_vnic sampleState (fun _ => true) "Ai-vNIC").2.1 =
        vnicFullTrace "Ai-vNIC") :=
  ⟨by simp [sampleState],
   (c2_vnic_creation_order_no_rollback sampleState (fun _ => true) "Ai-vNIC"
      (by simp [sampleState])).1⟩

/-- A Policies-sheet row.  policyName is the "Policy Name" column read
by create_policy; rawName is the "Name" column read by the existence
check inside create_and_push_configuration, absent (KeyError) on sheets
that only carry "Policy Name". -/
structure PolicyRow where
  policyType : String
  policyName : String
  rawName : Option String
deriving Repr, DecidableEq

/-- Embedding of get_policy_class_id: the policy-type to class-id map,
none for unknown types (dict.get default). -/
def get_policy_class_id (policyType : String) : Option String :=
  if policyType = "BIOS" then some "bios.Policy"
  else if policyType = "QoS" then some "vnic.EthQosPolicy"
  else if policyType = "vNIC" then some "vnic.LanConnectivityPolicy"
  else if policyType = "Storage" then some "storage.StoragePolicy"
  else if policyType = "Boot" then some "boot.PrecisionPolicy"
  else none

/-- Embedding of policy_exists: resolve "Gruve" (an exception yields
false), then list the policy class filtered by name and test for a
nonempty result; unknown class ids yield false. -/
def policy_exists (s : ISState) (classId : Option String) (policyName : String) : Bool :=
  match get_org_moid s "Gruve" with
  | Except.error _ => false
  | Except.ok _ =>
    match classId with
    | some "bios.Policy" =>
      !(s.biosPolicies.filter (fun p => p.name = policyName)).isEmpty
    | some "vnic.EthQosPolicy" =>
      !(s.qosPolicies.filter (fun p => p.name = policyName)).isEmpty
    | some "vnic.EthAdapterPolicy" =>
      !(s.ethAdapterPolicies.filter (fun p => p.name = policyName)).isEmpty
    | some "fabric.EthNetworkGroupPolicy" =>
      !(s.netGroupPolicies.filter (fun p => p.name = policyName)).isEmpty
    | some "vnic.LanConnectivityPolicy" =>
      !(s.lanConnPolicies.filter (fun p => p.name = policyName)).isEmpty
    | some "boot.PrecisionPolicy" =>
      !(s.bootPolicies.filter (fun p => p.name = policyName)).isEmpty
    | some "storage.StoragePolicy" =>
      !(s.storagePolicies.filter (fun p => p.name = policyName)).isEmpty
    | _ => false

/-- Embedding of create_policy: dispatch on the Policy Type in source
order (BIOS, QoS, vNIC, Storage, Boot); each simple branch resolves
"Gruve" and issues one create call, the vNIC branch fans out via
create_policy_vnic, anything else returns false. -/
def create_policy (s : ISState) (sched : Nat → Bool) (row : PolicyRow) :
    Bool × List ApiCall × ISState :=
  if row.policyType = "BIOS" then
    match get_org_moid s "Gruve" with
    | Except.error _ => (false, [], s)
    | Except.ok _ =>
      if sched s.nextMoid then
        (true, [ApiCall.createBiosPolicy row.policyName],
          { s with
              biosPolicies := s.biosPolicies ++ [{ name := row.policyName, moid := s.nextMoid }],
              nextMoid := s.nextMoid + 1 })
      else (false, [ApiCall.createBiosPolicy row.policyName], s)
  else if row.policyType = "QoS" then
    match get_org_moid s "Gruve" with
    | Except.error _ => (false, [], s)
    | Except.ok _ =>
      if sched s.nextMoid then
        (true, [ApiCall.createQosPolicy row.policyName],
          { s with
              qosPolicies := s.qosPolicies ++ [{ name := row.policyName, moid := s.nextMoid }],
              nextMoid := s.nextMoid + 1 })
      else (false, [ApiCall.createQosPolicy row.policyName], s)
  else if row.policyType = "vNIC" then
    create_policy_vnic s sched row.policyName
  else if row.policyType = "Storage" then
    match get_org_moid s "Gruve" with
    | Except.error _ => (false, [], s)
    | Except.ok _ =>
      if sched s.nextMoid then
        (true, [ApiCall.createStoragePolicy row.policyName],
          { s with
              storagePolicies := s.storagePolicies ++ [{ name := row.policyName, moid := s.nextMoid }],
              nextMoid := s.nextMoid + 1 })
      else (false, [ApiCall.createStoragePolicy row.policyName], s)
  else if row.policyType = "Boot" then
    match get_org_moid s "Gruve" with
    | Except.error _ => (false, [], s)
    | Except.ok _ =>
      if sched s.nextMoid then
        (true, [ApiCall.createBootPolicy row.policyName],
          { s with
              bootPolicies := s.bootPolicies ++ [{ name := row.policyName, moid := s.nextMoid }],
              nextMoid := s.nextMoid + 1 })
      else (false, [ApiCall.createBootPolicy row.policyName], s)
  else (false, [], s)

/-- A call the Policies driver loop makes for a row: either the
existence pre-check or one of the API creation calls. -/
inductive DriverCall where
  | checkPolicyExists (classId : Option String) (name : String)
  | api (c : ApiCall)
deriving Repr, DecidableEq

/-- One policy-type batch of the Policies loop inside
process_foundation_template: existence check first, then create_policy,
breaking out of the batch at the first failed creation.  Every emitted
call is tagged with the policy type of the row that caused it. -/
def processPolicyRowsOfType (sched : Nat → Bool) (ptype : String) :
    ISState → List PolicyRow → List (String × DriverCall) × Bool × ISState
  | s, [] => ([], true, s)
  | s, row :: rest =>
    let checkEv : String × DriverCall :=
      (ptype, DriverCall.checkPolicyExists (get_policy_class_id ptype) row.policyName)
    if policy_exists s (get_policy_class_id ptype) row.policyName then
      let r := processPolicyRowsOfType sched ptype s rest
      (checkEv :: r.1, r.2)
    else
      let c := create_policy s sched row
      if c.1 then
        let r := processPolicyRowsOfType sched ptype c.2.2 rest
        (checkEv :: c.2.1.map (fun a => (ptype, DriverCall.api a)) ++ r.1, r.2)
      else
        (checkEv :: c.2.1.map (fun a => (ptype, DriverCall.api a)), false, c.2.2)

/-- The fixed processing order of policy types used by both drivers. -/
def policy_order : List String := ["BIOS", "QoS", "vNIC", "Boot", "Storage"]

/-- The outer Policies loop of process_foundation_template over a list
of policy types: each type processes its filtered rows, and a failed
batch aborts the remaining types. -/
def processPoliciesGo (sched : Nat → Bool) (rows : List PolicyRow) :
    List String → ISState → List (String × DriverCall) × Bool × ISState
  | [], s => ([], true, s)
  | t :: ts, s =>
    let r := processPolicyRowsOfType sched t s (rows.filter (fun x => x.policyType = t))
    if r.2.1 then
      let rest := processPoliciesGo sched rows ts r.2.2
      (r.1 ++ rest.1, rest.2)
    else (r.1, false, r.2.2)

/-- The Policies section of process_foundation_template. -/
def processPolicies (sched : Nat → Bool) (s : ISState) (rows : List PolicyRow) :
    List (String × DriverCall) × Bool × ISState :=
  processPoliciesGo sched rows policy_order s

/-- One policy-type batch of the Policies loop inside
create_and_push_configuration: the existence check reads the "Name"
column (a missing column raises and aborts the whole function), and a
failed creation does not break the batch. -/
def pushPolicyRowsOfType (sched : Nat → Bool) (ptype : String) :
    ISState → List PolicyRow → List (String × DriverCall) × Bool × ISState
  | s, [] => ([], true, s)
  | s, row :: rest =>
    match row.rawName with
    | none => ([], false, s)
    | some nm =>
      let checkEv : String × DriverCall :=
        (ptype, DriverCall.checkPolicyExists (get_policy_class_id ptype) nm)
      if policy_exists s (get_policy_class_id ptype) nm then
        let r := pushPolicyRowsOfType sched ptype s rest
        (checkEv :: r.1, r.2)
      else
        let c := create_policy s sched row
        let r := pushPolicyRowsOfType sched ptype c.2.2 rest
        (checkEv :: c.2.1.map (fun a => (ptype, DriverCall.api a)) ++ r.1, r.2)

/-- The outer Policies loop of create_and_push_configuration. -/
def pushPoliciesGo (sched : Nat → Bool) (rows : List PolicyRow) :
    List String → ISState → List (String × DriverCall) × Bool × ISState
  | [], s => ([], true, s)
  | t :: ts, s =>
    let r := pushPolicyRowsOfType sched t s (rows.filter (fun x => x.policyType = t))
    if r.2.1 then
      let rest := pushPoliciesGo sched rows ts r.2.2
      (r.1 ++ rest.1, rest.2)
    else (r.1, false, r.2.2)

/-- The Policies section of create_and_push_configuration. -/
def pushConfigurationPolicies (sched : Nat → Bool) (s : ISState) (rows : List PolicyRow) :
    List (String × DriverCall) × Bool × ISState :=
  pushPoliciesGo sched rows policy_order s

/-- The position of a policy type in the fixed processing order. -/
def policyRank (t : String) : Nat := policy_order.indexOf t

/-- Every call emitted while processing the batch of one policy type is
tagged with that type (process_foundation_template loop). -/
theorem processPolicyRowsOfType_tags (sched : Nat → Bool) (ptype : String) :
    ∀ (rows : List PolicyRow) (s : ISState),
      ∀ e ∈ (processPolicyRowsOfType sched ptype s rows).1, e.1 = ptype := by
  intro rows
  induction rows with
  | nil =>
    intro s e he
    simp [processPolicyRowsOfType] at he
  | cons row rest ih =>
    intro s e he
    simp only [processPolicyRowsOfType] at he
    split at he
    · rcases List.mem_cons.mp he with h | h
      · subst h; rfl
      · exact ih _ e h
    · split at he
      · rcases List.mem_cons.mp he with h | h
        · subst h; rfl
        · rcases List.mem_append.mp h with h | h
          · rcases List.mem_map.mp h with ⟨a, _, h2⟩
            rw [← h2]
          · exact ih _ e h
      · rcases List.mem_cons.mp he with h | h
        · subst h; rfl
        · rcases List.mem_map.mp h with ⟨a, _, h2⟩
          rw [← h2]

/-- Every call emitted while processing the batch of one policy type is
tagged with that type (create_and_push_configuration loop). -/
theorem pushPolicyRowsOfType_tags (sched : Nat → Bool) (ptype : String) :
    ∀ (rows : List PolicyRow) (s : ISState),
      ∀ e ∈ (pushPolicyRowsOfType sched ptype s rows).1, e.1 = ptype := by
  intro rows
  induction rows with
  | nil =>
    intro s e he
    simp [pushPolicyRowsOfType] at he
  | cons row rest ih =>
    intro s e he
    simp only [pushPolicyRowsOfType] at he
    split at he
    · simp at he
    · split at he
      · rcases List.mem_cons.mp he with h | h
        · subst h; rfl
        · exact ih _ e h
      · rcases List.mem_cons.mp he with h | h
        · subst h; rfl
        · rcases List.mem_append.mp h with h | h
          · rcases List.mem_map.mp h with ⟨a, _, h2⟩
            rw [← h2]
          · exact ih _ e h

/-- Every call the outer loop emits is tagged with a type from the list
still to be processed (process_foundation_template loop). -/
theorem processPoliciesGo_tags (sched : Nat → Bool) (rows : List PolicyRow) :
    ∀ (ts : List String) (s : ISState),
      ∀ e ∈ (processPoliciesGo sched rows ts s).1, e.1 ∈ ts := by
  intro ts
  induction ts with
  | nil =>
    intro s e he
    simp [processPoliciesGo] at he
  | cons t ts ih =>
    intro s e he
    simp only [processPoliciesGo] at he
    split at he
    · rcases List.mem_append.mp he with h | h
      · exact List.mem_cons.mpr (Or.inl (processPolicyRowsOfType_tags sched t _ _ e h))
      · exact List.mem_cons.mpr (Or.inr (ih _ e h))
    · exact List.mem_cons.mpr (Or.inl (processPolicyRowsOfType_tags sched t _ _ e he))

/-- Every call the outer loop emits is tagged with a type from the list
still to be processed (create_and_push_configuration loop). -/
theorem pushPoliciesGo_tags (sched : Nat → Bool) (rows : List PolicyRow) :
    ∀ (ts : List String) (s : ISState),
      ∀ e ∈ (pushPoliciesGo sched rows ts s).1, e.1 ∈ ts := by
  intro ts
  induction ts with
  | nil =>
    intro s e he
    simp [pushPoliciesGo] at he
  | cons t ts ih =>
    intro s e he
    simp only [pushPoliciesGo] at he
    split at he
    · rcases List.mem_append.mp he with h | h
      · exact List.mem_cons.mpr (Or.inl (pushPolicyRowsOfType_tags sched t _ _ e h))
      · exact List.mem_cons.mpr (Or.inr (ih _ e h))
    · exact List.mem_cons.mpr (Or.inl (pushPolicyRowsOfType_tags sched t _ _ e he))

/-- The outer loop of process_foundation_template preserves rank
ordering: if the type list is rank-sorted, so is the emitted trace. -/
theorem processPoliciesGo_pairwise (sched : Nat → Bool) (rows : List PolicyRow) :
    ∀ (ts : List String) (s : ISState),
      ts.Pairwise (fun a b => policyRank a ≤ policyRank b) →
      ((processPoliciesGo sched rows ts s).1).Pairwise
        (fun a b => policyRank a.1 ≤ policyRank b.1) := by
  intro ts
  induction ts with
  | nil =>
    intro s _
    simp [processPoliciesGo]
  | cons t ts ih =>
    intro s hp
    rw [List.pairwise_cons] at hp
    simp only [processPoliciesGo]
    split
    · rw [List.pairwise_append]
      refine ⟨?_, ih _ hp.2, ?_⟩
      · apply List.pairwise_of_forall_mem_list
        intro a ha b hb
        rw [processPolicyRowsOfType_tags sched t _ _ a ha,
          processPolicyRowsOfType_tags sched t _ _ b hb]
      · intro a ha b hb
        rw [processPolicyRowsOfType_tags sched t _ _ a ha]
        exact hp.1 _ (processPoliciesGo_tags sched rows ts _ b hb)
    · apply List.pairwise_of_forall_mem_list
      intro a ha b hb
      rw [processPolicyRowsOfType_tags sched t _ _ a ha,
        processPolicyRowsOfType_tags sched t _ _ b hb]

/-- The outer loop of create_and_push_configuration preserves rank
ordering likewise. -/
theorem pushPoliciesGo_pairwise (sched : Nat → Bool) (rows : List PolicyRow) :
    ∀ (ts : List String) (s : ISState),
      ts.Pairwise (fun a b => policyRank a ≤ policyRank b) →
      ((pushPoliciesGo sched rows ts s).1).Pairwise
        (fun a b => policyRank a.1 ≤ policyRank b.1) := by
  intro ts
  induction ts with
  | nil =>
    intro s _
    simp [pushPoliciesGo]
  | cons t ts ih =>
    intro s hp
    rw [List.pairwise_cons] at hp
    simp only [pushPoliciesGo]
    split
    · rw [List.pairwise_append]
      refine ⟨?_, ih _ hp.2, ?_⟩
      · apply List.pairwise_of_forall_mem_list
        intro a ha b hb
        rw [pushPolicyRowsOfType_tags sched t _ _ a ha,
          pushPolicyRowsOfType_tags sched t _ _ b hb]
      · intro a ha b hb
        rw [pushPolicyRowsOfType_tags sched t _ _ a ha]
        exact hp.1 _ (pushPoliciesGo_tags sched rows ts _ b hb)
    · apply List.pairwise_of_forall_mem_list
      intro a ha b hb
      rw [pushPolicyRowsOfType_tags sched t _ _ a ha,
        pushPolicyRowsOfType_tags sched t _ _ b hb]

/-- C3: in both process_foundation_template and
create_and_push_configuration the Policies rows are grouped by Policy
Type and the groups run in the fixed order BIOS, QoS, vNIC, Boot,
Storage: in the emitted call trace, every call tagged with an earlier
type of that order precedes every call tagged with a later one,
regardless of the order of the rows in the sheet. -/
theorem c3_policy_groups_fixed_order (sched : Nat → Bool) (s1 s2 : ISState)
    (rows1 rows2 : List PolicyRow) :
    ((processPolicies sched s1 rows1).1).Pairwise
      (fun a b => policyRank a.1 ≤ policyRank b.1) ∧
    ((pushConfigurationPolicies sched s2 rows2).1).Pairwise
      (fun a b => policyRank a.1 ≤ policyRank b.1) := by
  constructor
  · exact processPoliciesGo_pairwise sched rows1 policy_order s1 (by
      simp [policy_order, policyRank])
  · exact pushPoliciesGo_pairwise sched rows2 policy_order s2 (by
      simp [policy_order, policyRank])

/-- The process environment get_api_client reads: the two variables and
the file-existence observation for the key path. -/
structure Env where
  apiKeyId : Option String
  privateKeyFile : Option String
  fileExists : String → Bool

/-- The private-key path: INTERSIGHT_PRIVATE_KEY_FILE with its default. -/
def effectiveKeyFile (env : Env) : String :=
  match env.privateKeyFile with
  | some f => f
  | none => "./SecretKey.txt"

/-- The constructed API client configuration. -/
structure ApiClient where
  keyId : String
  keyFile : String
deriving Repr, DecidableEq

/-- Embedding of get_api_client: None when the key id is unset or empty
(Python falsiness) or the key file does not exist, otherwise a client. -/
def get_api_client (env : Env) : Option ApiClient :=
  match env.apiKeyId with
  | none => none
  | some k =>
    if k.isEmpty then none
    else if env.fileExists (effectiveKeyFile env) then
      some { keyId := k, keyFile := effectiveKeyFile env }
    else none

/-- What the process does at top level: exit status 1 or a completed
dispatch. -/
inductive MainOutcome where
  | exitFailure
  | ran
deriving Repr, DecidableEq

/-- Embedding of the argument dispatch in the main block: every action
except create-template first builds the API client and exits with
status 1 when that fails, before any API request; create-template only
writes the Excel workbook locally.  The API requests a successful
dispatch would make are abstracted by the run argument. -/
def main_dispatch (env : Env) (action : String)
    (run : String → ApiClient → List ApiCall) : MainOutcome × List ApiCall :=
  if action = "update-servers" then
    match get_api_client env with
    | none => (MainOutcome.exitFailure, [])
    | some c => (MainOutcome.ran, run action c)
  else if action = "create-template" then
    (MainOutcome.ran, [])
  else if action = "setup" then
    match get_api_client env with
    | none => (MainOutcome.exitFailure, [])
    | some c => (MainOutcome.ran, run action c)
  else if action = "get-info" then
    match get_api_client env with
    | none => (MainOutcome.exitFailure, [])
    | some c => (MainOutcome.ran, run action c)
  else
    match get_api_client env with
    | none => (MainOutcome.exitFailure, [])
    | some c => (MainOutcome.ran, run action c)

/-- C4: when INTERSIGHT_API_KEY_ID is unset or the private-key file does
not exist, get_api_client returns None, and for every CLI action other
than create-template the process exits with status 1 having issued no
API request. -/
theorem c4_missing_credentials_exit (env : Env)
    (h : env.apiKeyId = none ∨ env.fileExists (effectiveKeyFile env) = false) :
    get_api_client env = none ∧
    ∀ (action : String) (run : String → ApiClient → List ApiCall),
      action ≠ "create-template" →
      main_dispatch env action run = (MainOutcome.exitFailure, []) := by
  have hc : get_api_client env = none := by
    rcases h with h | h
    · simp [get_api_client, h]
    · rcases henv : env.apiKeyId with _ | k
      · simp [get_api_client, henv]
      · simp [get_api_client, henv, h]
  refine ⟨hc, ?_⟩
  intro action run hne
  simp [main_dispatch, hc, hne]

/-- Witness for C4 at a fully empty environment and the push action. -/
theorem c4_missing_credentials_exit_witness :
    (({ apiKeyId := none, privateKeyFile := none, fileExists := fun _ => false } : Env).apiKeyId
      = none) ∧
    main_dispatch { apiKeyId := none, privateKeyFile := none, fileExists := fun _ => false }
      "push" (fun _ _ => []) = (MainOutcome.exitFailure, []) :=
  ⟨rfl,
   (c4_missing_credentials_exit
      { apiKeyId := none, privateKeyFile := none, fileExists := fun _ => false }
      (Or.inl rfl)).2 "push" (fun _ _ => []) (by decide)⟩

/-- First policy in the listed results whose name matches, as the
linear scan in get_policy_moid returns the first match. -/
def firstPolicyMoid (ps : List Policy) (policyName : String) : Option Nat :=
  match ps.filter (fun p => p.name = policyName) with
  | [] => none
  | p :: _ => some p.moid

/-- Embedding of get_policy_moid: list the policy class, scan for the
first object with the requested name, None when nothing matches or the
class id is unknown (the raised exception is caught and becomes None). -/
def get_policy_moid (s : ISState) (policyType policyName : String) : Option Nat :=
  if policyType = "bios.Policy" then firstPolicyMoid s.biosPolicies policyName
  else if policyType = "vnic.LanConnectivityPolicy" then
    firstPolicyMoid s.lanConnPolicies policyName
  else if policyType = "vnic.EthQosPolicy" then firstPolicyMoid s.qosPolicies policyName
  else if policyType = "storage.StoragePolicy" then
    firstPolicyMoid s.storagePolicies policyName
  else if policyType = "macpool.Pool" then
    match s.macPools.filter (fun p => p.name = policyName) with
    | [] => none
    | p :: _ => some p.moid
  else if policyType = "boot.PrecisionPolicy" then firstPolicyMoid s.bootPolicies policyName
  else if policyType = "storage.StoragePolicies" then
    firstPolicyMoid s.storagePolicies policyName
  else none

/-- Embedding of get_pool_moid: list MAC pools filtered by name and
return the MOID of the first result; the Python function raises when the
filtered list is empty, rendered as Except.error. -/
def get_pool_moid (s : ISState) (poolName : String) : Except String Nat :=
  match s.macPools.filter (fun p => p.name = poolName) with
  | [] => Except.error ("Pool not found: " ++ poolName)
  | p :: _ => Except.ok p.moid

/-- Embedding of get_server_moid: list rack units filtered by name and
return the MOID of the first result, None when nothing matches. -/
def get_server_moid (s : ISState) (serverName : String) : Option Nat :=
  match s.servers.filter (fun v => v.name = serverName) with
  | [] => none
  | v :: _ => some v.moid

/-- Lowercasing as used by the flexible matching (str.lower), expressed
by mapping Char.toLower over the characters so that it reduces
structurally. -/
def lowerStr (s : String) : String := String.mk (s.data.map Char.toLower)

/-- Embedding of get_template_moid: consult the template-name mapping,
then try an exact filtered match (first result wins); when that fails
fall back to flexible matching exactly as the source does: the first
case-insensitive exact match, else the first template whose lowercased
name starts with the request, else the first whose lowercased name
contains it, else None. -/
def get_template_moid (s : ISState) (tm : List (String × String))
    (templateName : String) : Option Nat :=
  let name := match tm.lookup templateName with
    | some mapped => mapped
    | none => templateName
  match s.templates.filter (fun t => t.name = name) with
  | t :: _ => some t.moid
  | [] =>
    let lower := lowerStr name
    match s.templates.find? (fun t => lowerStr t.name = lower) with
    | some t => some t.moid
    | none =>
      match s.templates.filter (fun t => lower.data.isPrefixOf (lowerStr t.name).data) with
      | t :: _ => some t.moid
      | [] =>
        match s.templates.filter (fun t => decide (lower.data <:+: (lowerStr t.name).data)) with
        | t :: _ => some t.moid
        | [] => none

/-- Character-level prefix slicing, matching the Python hex[:8] slice
and expressed structurally on the character list. -/
def strTake (s : String) (n : Nat) : String := String.mk (s.data.take n)

/-- A Template-sheet row as read by create_server_template. -/
structure TemplateRow where
  templateName : String
  organization : String
  targetPlatform : String
  biosPolicy : String
  bootPolicy : Option String
  lanPolicy : String
  storagePolicy : String
deriving Repr, DecidableEq

/-- Embedding of create_server_template.  hex32 stands for the value of
uuid.uuid4().hex, of which the first 8 characters are appended to the
row name.  The required BIOS, LAN and storage policies gate the create
call; the optional boot policy does not (a miss only drops it from the
policy bucket).  On success the original-to-unique name pair is pushed
onto the template_mappings association list (add_template_mapping). -/
def create_server_template (s : ISState) (tm : List (String × String)) (hex32 : String)
    (sched : Nat → Bool) (row : TemplateRow) :
    Bool × List ApiCall × ISState × List (String × String) :=
  match get_org_moid s row.organization with
  | Except.error _ => (false, [], s, tm)
  | Except.ok _orgMoid =>
    let uniqueName := row.templateName ++ "_" ++ strTake hex32 8
    match get_policy_moid s "bios.Policy" row.biosPolicy with
    | none => (false, [], s, tm)
    | some _ =>
      match get_policy_moid s "vnic.LanConnectivityPolicy" row.lanPolicy with
      | none => (false, [], s, tm)
      | some _ =>
        match get_policy_moid s "storage.StoragePolicy" row.storagePolicy with
        | none => (false, [], s, tm)
        | some _ =>
          if sched s.nextMoid then
            (true, [ApiCall.createServerTemplate uniqueName],
              { s with
                  templates := s.templates ++ [{ name := uniqueName, moid := s.nextMoid }],
                  nextMoid := s.nextMoid + 1 },
              (row.templateName, uniqueName) :: tm)
          else
            (false, [ApiCall.createServerTemplate uniqueName], s, tm)

/-- A Profiles-sheet row as read by the profile creation functions. -/
structure ProfileRow where
  profileName : String
  organization : String
  templateName : String
  server : String
  deploy : String
deriving Repr, DecidableEq

/-- An entry of the profiles_for_manual_creation global list. -/
structure ManualRecord where
  name : String
  template : String
  organization : String
  server : String
  deploy : String
deriving Repr, DecidableEq

/-- Embedding of create_server_profile: resolve the organization (a
raised lookup error is caught by the outer handler and fails the row
with no record), consult the template mapping and resolve the template,
resolve the assigned server when one is named (name part before a
" | " separator), then issue the single profile POST.  When the POST
raises, the except handler stores a manual-creation record built from
the local server_name variable, which is only defined when a server was
named: with no server the handler itself raises and no record is kept. -/
def create_server_profile (s : ISState) (tm : List (String × String))
    (manual : List ManualRecord) (sched : Nat → Bool) (row : ProfileRow) :
    Bool × List ApiCall × ISState × List ManualRecord :=
  match get_org_moid s row.organization with
  | Except.error _ => (false, [], s, manual)
  | Except.ok _orgMoid =>
    let tname := match tm.lookup row.templateName with
      | some mapped => mapped
      | none => row.templateName
    match get_template_moid s tm tname with
    | none => (false, [], s, manual)
    | some templateMoid =>
      let serverName := (row.server.splitOn " | ").headD row.server
      if row.server = "" then
        if sched s.nextMoid then
          (true, [ApiCall.createServerProfile row.profileName],
            { s with
                profiles := s.profiles ++
                  [{ name := row.profileName, moid := s.nextMoid,
                     srcTemplate := some templateMoid }],
                nextMoid := s.nextMoid + 1 },
            manual)
        else
          (false, [ApiCall.createServerProfile row.profileName], s, manual)
      else
        match get_server_moid s serverName with
        | none => (false, [], s, manual)
        | some _serverMoid =>
          if sched s.nextMoid then
            (true, [ApiCall.createServerProfile row.profileName],
              { s with
                  profiles := s.profiles ++
                    [{ name := row.profileName, moid := s.nextMoid,
                       srcTemplate := some templateMoid }],
                  nextMoid := s.nextMoid + 1 },
              manual)
          else
            (false, [ApiCall.createServerProfile row.profileName], s,
              manual ++ [{ name := row.profileName, template := row.templateName,
                           organization := row.organization, server := serverName,
                           deploy := row.deploy }])

/-- Embedding of create_and_derive_profile: resolve the organization (a
raised lookup error reaches the except handler, which stores a manual
record and fails the row), consult the mapping and resolve the
template (a miss is a plain early return with no record), resolve the
server when one is named (name part before a " | SN: " separator), then
create the profile and update it to attach the template.  A raising
create or update reaches the except handler: a record is stored and the
row fails, with the already-created profile left in place. -/
def create_and_derive_profile (s : ISState) (tm : List (String × String))
    (manual : List ManualRecord) (sched : Nat → Bool) (row : ProfileRow) :
    Bool × List ApiCall × ISState × List ManualRecord :=
  match get_org_moid s row.organization with
  | Except.error _ =>
    (false, [], s,
      manual ++ [{ name := row.profileName, template := row.templateName,
                   organization := row.organization, server := row.server,
                   deploy := row.deploy }])
  | Except.ok _orgMoid =>
    let tname := match tm.lookup row.templateName with
      | some mapped => mapped
      | none => row.templateName
    match get_template_moid s tm tname with
    | none => (false, [], s, manual)
    | some templateMoid =>
      let serverName := if row.server = "" then row.server
        else (row.server.splitOn " | SN: ").headD row.server
      let failRecord : ManualRecord :=
        { name := row.profileName, template := tname,
          organization := row.organization, server := serverName,
          deploy := row.deploy }
      let proceed : Bool × List ApiCall × ISState × List ManualRecord :=
        if sched s.nextMoid then
          let profileMoid := s.nextMoid
          let s1 : ISState := { s with
            profiles := s.profiles ++
              [{ name := row.profileName, moid := profileMoid, srcTemplate := none }],
            nextMoid := s.nextMoid + 1 }
          if sched s1.nextMoid then
            (true,
              [ApiCall.createServerProfile row.profileName,
               ApiCall.updateServerProfile profileMoid],
              { s1 with
                  profiles := s1.profiles.map (fun p =>
                    if p.moid == profileMoid then { p with srcTemplate := some templateMoid }
                    else p) },
              manual)
          else
            (false,
              [ApiCall.createServerProfile row.profileName,
               ApiCall.updateServerProfile profileMoid],
              s1, manual ++ [failRecord])
        else
          (false, [ApiCall.createServerProfile row.profileName], s,
            manual ++ [failRecord])
      if row.server = "" then proceed
      else
        match get_server_moid s serverName with
        | none => (false, [], s, manual)
        | some _serverMoid => proceed

/-- C5: when the organization list filtered by the requested name is
empty, get_org_moid yields a failure (the raised exception), and each
per-row creation function whose row names that organization issues no
create call and returns False: create_server_template,
create_server_profile, create_and_derive_profile, and (for the
hard-coded "Gruve" organization that pool and policy rows resolve)
create_policy, create_mac_pool, create_uuid_pool and create_pool, whose
trace then carries no pool create call, only invocation markers. -/
theorem c5_missing_org_skips_row (s : ISState) (orgName : String)
    (h : s.orgs.filter (fun o => o.name = orgName) = []) :
    (∃ msg, get_org_moid s orgName = Except.error msg) ∧
    (∀ (tm : List (String × String)) (hex32 : String) (sched : Nat → Bool)
        (row : TemplateRow), row.organization = orgName →
      create_server_template s tm hex32 sched row = (false, [], s, tm)) ∧
    (∀ (tm : List (String × String)) (manual : List ManualRecord) (sched : Nat → Bool)
        (row : ProfileRow), row.organization = orgName →
      (create_server_profile s tm manual sched row).1 = false ∧
      (create_server_profile s tm manual sched row).2.1 = []) ∧
    (∀ (tm : List (String × String)) (manual : List ManualRecord) (sched : Nat → Bool)
        (row : ProfileRow), row.organization = orgName →
      (create_and_derive_profile s tm manual sched row).1 = false ∧
      (create_and_derive_profile s tm manual sched row).2.1 = []) ∧
    (orgName = "Gruve" →
      ∀ (sched : Nat → Bool) (row : PolicyRow),
        (create_policy s sched row).1 = false ∧
        (create_policy s sched row).2.1 = []) ∧
    (orgName = "Gruve" →
      ∀ (sched : Nat → Bool) (poolType poolName : String),
        create_mac_pool s sched poolName = (false, [], s) ∧
        create_uuid_pool s sched poolName = (false, [], s) ∧
        (create_pool s sched poolType poolName).1 = false ∧
        (∀ e ∈ (create_pool s sched poolType poolName).2.1,
          e.isPoolPathInvocation = true)) := by
  have herr : get_org_moid s orgName =
      Except.error ("Organization not found: " ++ orgName) := by
    simp [get_org_moid, h]
  refine ⟨⟨_, herr⟩, ?_, ?_, ?_, ?_, ?_⟩
  · intro tm hex32 sched row hrow
    simp [create_server_template, hrow, herr]
  · intro tm manual sched row hrow
    simp [create_server_profile, hrow, herr]
  · intro tm manual sched row hrow
    simp [create_and_derive_profile, hrow, herr]
  · intro hg sched row
    subst hg
    by_cases h1 : row.policyType = "BIOS"
    · simp [create_policy, h1, herr]
    · by_cases h2 : row.policyType = "QoS"
      · simp [create_policy, h1, h2, herr]
      · by_cases h3 : row.policyType = "vNIC"
        · simp [create_policy, h1, h2, h3, create_policy_vnic, herr]
        · by_cases h4 : row.policyType = "Storage"
          · simp [create_policy, h1, h2, h3, h4, herr]
          · by_cases h5 : row.policyType = "Boot"
            · simp [create_policy, h1, h2, h3, h4, h5, herr]
            · simp [create_policy, h1, h2, h3, h4, h5]
  · intro hg sched poolType poolName
    subst hg
    have hpe : pool_exists s poolType poolName = false := by
      simp [pool_exists, herr]
    refine ⟨by simp [create_mac_pool, herr], by simp [create_uuid_pool, herr], ?_, ?_⟩
    · by_cases h1 : poolType = "MAC Pool"
      · subst h1
        simp [create_pool, hpe, create_mac_pool, herr]
      · by_cases h2 : poolType = "UUID Pool"
        · subst h2
          simp [create_pool, hpe, create_uuid_pool, herr]
        · simp [create_pool, hpe, h1, h2]
    · intro e he
      by_cases h1 : poolType = "MAC Pool"
      · subst h1
        simp [create_pool, hpe, create_mac_pool, herr] at he
        rw [he]
        rfl
      · by_cases h2 : poolType = "UUID Pool"
        · subst h2
          simp [create_pool, hpe, create_uuid_pool, herr] at he
          rw [he]
          rfl
        · simp [create_pool, hpe, h1, h2] at he

/-- Witness for C5: in a state that only knows the "Gruve" organization,
a template row naming the organization "Missing" is skipped. -/
theorem c5_missing_org_skips_row_witness :
    (sampleState.orgs.filter (fun o => o.name = "Missing") = []) ∧
    create_server_template sampleState [] "0123456789abcdef" (fun _ => true)
      { templateName := "T1", organization := "Missing", targetPlatform := "FIAttached",
        biosPolicy := "B1", bootPolicy := none, lanPolicy := "L1", storagePolicy := "S1" } =
      (false, [], sampleState, []) :=
  ⟨by decide,
   (c5_missing_org_skips_row sampleState "Missing" (by decide)).2.1 [] "0123456789abcdef"
      (fun _ => true)
      { templateName := "T1", organization := "Missing", targetPlatform := "FIAttached",
        biosPolicy := "B1", bootPolicy := none, lanPolicy := "L1", storagePolicy := "S1" }
      rfl⟩

/-- A state holding one uniquified template, for the C6 counterexample:
the requested name has no exact match there. -/
def c6FlexState : ISState :=
  { sampleState with templates := [{ name := "Ai_POD_Template_ab12cd34", moid := 7 }] }

/-- C6 counterexample: requesting "Ai_POD_Template", which matches no
template exactly, does not fail: flexible matching returns the MOID of
the differently named template "Ai_POD_Template_ab12cd34". -/
theorem c6_counterexample_flexible_match :
    get_template_moid c6FlexState [] "Ai_POD_Template" = some 7 ∧
    (∀ t ∈ c6FlexState.templates, t.name ≠ "Ai_POD_Template") := by
  constructor
  · decide
  · decide

/-- C6 as amended: get_pool_moid, get_server_moid, get_org_moid and
get_policy_moid resolve a name by a filtered (or scanned) list call,
return the MOID of the first match, and fail when nothing matches;
get_template_moid returns the first exact filtered match when one
exists, but on an exact-match miss falls back to flexible matching and
returns the matched template's MOID: the first case-insensitive exact
match, else the first prefix match, else the first substring match; it
fails only when no flexible candidate exists either. -/
theorem c6_amended_first_match_resolution (s : ISState) (nm : String) :
    ((s.macPools.filter (fun p => p.name = nm) = [] →
        ∃ msg, get_pool_moid s nm = Except.error msg) ∧
     (∀ (p : Pool) (l : List Pool),
        s.macPools.filter (fun p2 => p2.name = nm) = p :: l →
        get_pool_moid s nm = Except.ok p.moid)) ∧
    ((s.servers.filter (fun v => v.name = nm) = [] → get_server_moid s nm = none) ∧
     (∀ (v : Server) (l : List Server),
        s.servers.filter (fun v2 => v2.name = nm) = v :: l →
        get_server_moid s nm = some v.moid)) ∧
    ((s.orgs.filter (fun o => o.name = nm) = [] →
        ∃ msg, get_org_moid s nm = Except.error msg) ∧
     (∀ (o : Org) (l : List Org),
        s.orgs.filter (fun o2 => o2.name = nm) = o :: l →
        get_org_moid s nm = Except.ok o.moid)) ∧
    ((get_policy_moid s "bios.Policy" nm = firstPolicyMoid s.biosPolicies nm ∧
      get_policy_moid s "vnic.LanConnectivityPolicy" nm =
        firstPolicyMoid s.lanConnPolicies nm ∧
      get_policy_moid s "vnic.EthQosPolicy" nm = firstPolicyMoid s.qosPolicies nm ∧
      get_policy_moid s "storage.StoragePolicy" nm =
        firstPolicyMoid s.storagePolicies nm ∧
      get_policy_moid s "boot.PrecisionPolicy" nm = firstPolicyMoid s.bootPolicies nm) ∧
     (∀ ps : List Policy,
       (ps.filter (fun p => p.name = nm) = [] → firstPolicyMoid ps nm = none) ∧
       (∀ (p : Policy) (l : List Policy),
         ps.filter (fun p2 => p2.name = nm) = p :: l →
         firstPolicyMoid ps nm = some p.moid))) ∧
    ((∀ (t : Template) (l : List Template),
        s.templates.filter (fun t2 => t2.name = nm) = t :: l →
        get_template_moid s [] nm = some t.moid) ∧
     (∀ t : Template,
        s.templates.filter (fun t2 => t2.name = nm) = [] →
        s.templates.find? (fun t2 => lowerStr t2.name = lowerStr nm) = some t →
        get_template_moid s [] nm = some t.moid) ∧
     (∀ (t : Template) (l : List Template),
        s.templates.filter (fun t2 => t2.name = nm) = [] →
        s.templates.find? (fun t2 => lowerStr t2.name = lowerStr nm) = none →
        s.templates.filter
          (fun t2 => (lowerStr nm).data.isPrefixOf (lowerStr t2.name).data) = t :: l →
        get_template_moid s [] nm = some t.moid) ∧
     (∀ (t : Template) (l : List Template),
        s.templates.filter (fun t2 => t2.name = nm) = [] →
        s.templates.find? (fun t2 => lowerStr t2.name = lowerStr nm) = none →
        s.templates.filter
          (fun t2 => (lowerStr nm).data.isPrefixOf (lowerStr t2.name).data) = [] →
        s.templates.filter
          (fun t2 => decide ((lowerStr nm).data <:+: (lowerStr t2.name).data)) = t :: l →
        get_template_moid s [] nm = some t.moid) ∧
     (s.templates.filter (fun t2 => t2.name = nm) = [] →
      s.templates.find? (fun t2 => lowerStr t2.name = lowerStr nm) = none →
      s.templates.filter
        (fun t2 => (lowerStr nm).data.isPrefixOf (lowerStr t2.name).data) = [] →
      s.templates.filter
        (fun t2 => decide ((lowerStr nm).data <:+: (lowerStr t2.name).data)) = [] →
      get_template_moid s [] nm = none)) := by
  refine ⟨⟨?_, ?_⟩, ⟨?_, ?_⟩, ⟨?_, ?_⟩, ⟨⟨rfl, rfl, rfl, rfl, rfl⟩, ?_⟩,
    ?_, ?_, ?_, ?_, ?_⟩
  · intro h
    exact ⟨"Pool not found: " ++ nm, by simp [get_pool_moid, h]⟩
  · intro p l h
    simp [get_pool_moid, h]
  · intro h
    simp [get_server_moid, h]
  · intro v l h
    simp [get_server_moid, h]
  · intro h
    exact ⟨"Organization not found: " ++ nm, by simp [get_org_moid, h]⟩
  · intro o l h
    simp [get_org_moid, h]
  · intro ps
    constructor
    · intro h
      simp [firstPolicyMoid, h]
    · intro p l h
      simp [firstPolicyMoid, h]
  · intro t l h
    simp [get_template_moid, h]
  · intro t h1 h2
    simp [get_template_moid, h1, h2]
  · intro t l h1 h2 h3
    simp [get_template_moid, h1, h2, h3]
  · intro t l h1 h2 h3 h4
    simp [get_template_moid, h1, h2, h3, h4]
  · intro h1 h2 h3 h4
    simp [get_template_moid, h1, h2, h3, h4]

/-- Witness for the amended C6: a concrete exact-match resolution, a
concrete prefix-fallback resolution, a concrete all-miss failure, and a
concrete first-match policy resolution. -/
theorem c6_amended_first_match_resolution_witness :
    get_template_moid c6FlexState [] "Ai_POD_Template_ab12cd34" = some 7 ∧
    get_template_moid c6FlexState [] "Ai_POD_Template" = some 7 ∧
    get_template_moid c6FlexState [] "zz-no-such" = none ∧
    firstPolicyMoid [{ name := "B1", moid := 2 }] "B1" = some 2 := by
  refine ⟨?_, ?_, ?_, ?_⟩
  · exact (c6_amended_first_match_resolution c6FlexState
      "Ai_POD_Template_ab12cd34").2.2.2.2.1
      { name := "Ai_POD_Template_ab12cd34", moid := 7 } [] (by decide)
  · exact (c6_amended_first_match_resolution c6FlexState
      "Ai_POD_Template").2.2.2.2.2.2.1
      { name := "Ai_POD_Template_ab12cd34", moid := 7 } [] (by decide) (by decide)
      (by decide)
  · exact (c6_amended_first_match_resolution c6FlexState
      "zz-no-such").2.2.2.2.2.2.2.2 (by decide) (by decide) (by decide) (by decide)
  · exact ((c6_amended_first_match_resolution c6FlexState "B1").2.2.2.1.2
      [{ name := "B1", moid := 2 }]).2 { name := "B1", moid := 2 } [] (by decide)

/-- One entry of the API_CACHE dictionary: the stored result and the
wall-clock timestamp of the call that stored it (seconds). -/
structure CacheEntry (α : Type) where
  data : α
  timestamp : Nat
deriving Repr, DecidableEq

/-- The cache key built by the decorator from the function name and its
positional and keyword arguments. -/
def mkCacheKey (funcName args kwargs : String) : String :=
  funcName ++ ":" ++ args ++ ":" ++ kwargs

/-- The cache logic of the wrapper produced by cached_api_call, from the
point after the now() call: on a hit whose entry is younger than
timeout_minutes the stored result is returned without invoking the
wrapped function (third component false); otherwise the wrapped function
runs and its result is stored under the key, shadowing any older entry.
The process-global API_CACHE dictionary is passed and returned
explicitly.  In the source this logic is unreachable: see wrapperNow. -/
def cached_api_call {α : Type} (timeoutMinutes : Nat) (f : Unit → α) (key : String)
    (now : Nat) (cache : List (String × CacheEntry α)) :
    α × List (String × CacheEntry α) × Bool :=
  match cache.lookup key with
  | some e =>
    if now - e.timestamp < timeoutMinutes * 60 then (e.data, cache, false)
    else
      let r := f ()
      (r, (key, { data := r, timestamp := now }) :: cache, true)
  | none =>
    let r := f ()
    (r, (key, { data := r, timestamp := now }) :: cache, true)

/-- Embedding of the expression datetime.datetime.now() at line 191 of
the source.  Because line 31 reads "from datetime import datetime", the
module-level name datetime is bound to the datetime class, and the
attribute access datetime.datetime raises AttributeError: the now()
expression of the wrapper fails on every call. -/
def wrapperNow : Except String Nat :=
  Except.error "AttributeError: type object datetime has no attribute datetime"

/-- Embedding of the wrapper produced by cached_api_call as it actually
executes: the key is built, then the now() expression is evaluated; only
when that succeeds would the cache logic run.  The wrapper has no
exception handler, so the AttributeError propagates to the caller. -/
def cached_api_call_wrapped {α : Type} (timeoutMinutes : Nat) (f : Unit → α)
    (key : String) (cache : List (String × CacheEntry α)) :
    Except String (α × List (String × CacheEntry α) × Bool) :=
  match wrapperNow with
  | Except.error e => Except.error e
  | Except.ok now => Except.ok (cached_api_call timeoutMinutes f key now cache)

/-- C7 is a code bug: the wrapper raises AttributeError on every call at
the now() expression, before the API_CACHE dictionary is read or
written and before the wrapped function is invoked, so no call ever
stores or returns a cached result.  Evaluating the embedded wrapper at
any function, key, and cache yields the raised error. -/
theorem c7_cache_wrapper_always_raises (α : Type) (m : Nat) (f : Unit → α)
    (key : String) (cache : List (String × CacheEntry α)) :
    cached_api_call_wrapped m f key cache =
      Except.error "AttributeError: type object datetime has no attribute datetime" := rfl

/-- Embedding of get_organizations (the later, shadowing definition):
without a client, or when the list call raises, or when it returns no
results, the hard-coded fallback list is returned; otherwise the listed
names. -/
def get_organizations (hasClient : Bool) (listResult : Except String (List String)) :
    List String :=
  if !hasClient then ["default"]
  else
    match listResult with
    | Except.error _ => ["default"]
    | Except.ok names => if names.isEmpty then ["default"] else names

/-- One rack unit as read by get_available_servers; name is optional
(getattr with a None default, empty treated as falsy). -/
structure SrvRec where
  name : Option String
  model : String
  serial : String
deriving Repr, DecidableEq

/-- The dropdown string "Name (Model) | SN: Serial" with the serial
fallback for unnamed servers. -/
def formatServerOption (r : SrvRec) : String :=
  (match r.name with
   | some n => if n.isEmpty then "Server-" ++ r.serial else n
   | none => "Server-" ++ r.serial) ++ " (" ++ r.model ++ ") | SN: " ++ r.serial

/-- The hard-coded three-entry example server list of the source. -/
def defaultExampleServers : List String :=
  ["Server-01 (UCSX-210C-M6) | SN: FLM123456",
   "Server-02 (UCSX-210C-M6) | SN: FLM123457",
   "Server-03 (UCSX-210C-M6) | SN: FLM123458"]

/-- Embedding of get_available_servers with for_dropdown=True: format
each listed server; an empty listing or a raised list call yields the
hard-coded example list. -/
def get_available_servers_dropdown (listResult : Except String (List SrvRec)) :
    List String :=
  match listResult with
  | Except.error _ => defaultExampleServers
  | Except.ok servers =>
    let ds := servers.map formatServerOption
    if ds.isEmpty then defaultExampleServers else ds

/-- Embedding of get_available_servers with for_dropdown=False: the
detailed records sorted by the raw Name field (getattr with an
"Unknown" fallback, line 1610); a raised list call yields the empty
list. -/
def get_available_servers_detail (listResult : Except String (List SrvRec)) :
    List SrvRec :=
  match listResult with
  | Except.error _ => []
  | Except.ok servers =>
    servers.mergeSort (fun a b => a.name.getD "Unknown" ≤ b.name.getD "Unknown")

/-- Embedding of get_organizations as called: the body sits behind the
cached_api_call decorator with timeout_minutes=10, whose wrapper raises
before the body can run. -/
def get_organizations_decorated (hasClient : Bool)
    (listResult : Except String (List String))
    (cache : List (String × CacheEntry (List String))) :
    Except String (List String × List (String × CacheEntry (List String)) × Bool) :=
  cached_api_call_wrapped 10 (fun _ => get_organizations hasClient listResult)
    (mkCacheKey "get_organizations" "(api_client,)" "") cache

/-- Embedding of get_available_servers as called: the body (dropdown or
detail shape, chosen by for_dropdown) sits behind the cached_api_call
decorator with timeout_minutes=5, whose wrapper raises before the body
can run. -/
def get_available_servers_decorated (listResult : Except String (List SrvRec))
    (forDropdown : Bool)
    (cache : List (String × CacheEntry (List String ⊕ List SrvRec))) :
    Except String ((List String ⊕ List SrvRec) ×
      List (String × CacheEntry (List String ⊕ List SrvRec)) × Bool) :=
  cached_api_call_wrapped 5
    (fun _ =>
      if forDropdown then Sum.inl (get_available_servers_dropdown listResult)
      else Sum.inr (get_available_servers_detail listResult))
    (mkCacheKey "get_available_servers" "(api_client,)" "") cache

/-- C8 is a code bug: both template-builder lookups are wrapped by the
cached_api_call decorator whose wrapper raises AttributeError on every
call, so neither function ever returns its hard-coded fallback list and
the error does propagate to the caller.  The fallback logic the claim
describes lives in the undecorated bodies, which the wrapper prevents
from running: the body of get_organizations maps a raised list call to
the list containing only "default", and the body of
get_available_servers maps it to the fixed three-entry example list for
dropdowns and to the empty list otherwise. -/
theorem c8_builder_lookups_raise_before_fallback (err : String) (hasClient : Bool)
    (anyList : Except String (List String))
    (srvList : Except String (List SrvRec)) (forDropdown : Bool)
    (cache1 : List (String × CacheEntry (List String)))
    (cache2 : List (String × CacheEntry (List String ⊕ List SrvRec))) :
    get_organizations_decorated hasClient anyList cache1 =
      Except.error "AttributeError: type object datetime has no attribute datetime" ∧
    get_available_servers_decorated srvList forDropdown cache2 =
      Except.error "AttributeError: type object datetime has no attribute datetime" ∧
    get_organizations true (Except.error err) = ["default"] ∧
    get_organizations false anyList = ["default"] ∧
    get_available_servers_dropdown (Except.error err) = defaultExampleServers ∧
    defaultExampleServers.length = 3 ∧
    get_available_servers_detail (Except.error err) = [] ∧
    get_organizations hasClient anyList ≠ [] := by
  refine ⟨rfl, rfl, rfl, rfl, rfl, rfl, rfl, ?_⟩
  rcases hasClient with _ | _
  · simp [get_organizations]
  · rcases anyList with msg | names
    · simp [get_organizations]
    · rcases hn : names.isEmpty with _ | _ <;>
        simp [get_organizations, hn]
      intro habs
      rw [habs] at hn
      simp at hn

/-- A lowercase hexadecimal digit, the alphabet of uuid4().hex. -/
def isHexChar (c : Char) : Bool := "0123456789abcdef".data.contains c

/-- A state carrying the "Gruve" organization and the three required
policies, used by the C9 witness. -/
def c9WitnessState : ISState :=
  { sampleState with
      biosPolicies := [{ name := "B1", moid := 2 }]
      lanConnPolicies := [{ name := "L1", moid := 3 }]
      storagePolicies := [{ name := "S1", moid := 4 }] }

/-- C9: a successful create_server_template never creates a template
named exactly as the row: the single create call carries the row name
with an underscore and the first 8 characters of the 32-character
uuid4 hex string appended (8 hex characters), the original-to-unique
pair is recorded in template_mappings, and a subsequent
get_template_moid on the original name is redirected through the
mapping to the uniquified template just created. -/
theorem c9_template_names_uniquified (s : ISState) (tm : List (String × String))
    (hex32 : String) (sched : Nat → Bool) (row : TemplateRow)
    (hlen : hex32.length = 32)
    (hhex : ∀ c ∈ hex32.data, isHexChar c = true)
    (hfresh : ∀ t ∈ s.templates, t.name ≠ row.templateName ++ "_" ++ strTake hex32 8)
    (hsucc : (create_server_template s tm hex32 sched row).1 = true) :
    (create_server_template s tm hex32 sched row).2.1 =
      [ApiCall.createServerTemplate (row.templateName ++ "_" ++ strTake hex32 8)] ∧
    (strTake hex32 8).length = 8 ∧
    (∀ c ∈ (strTake hex32 8).data, isHexChar c = true) ∧
    row.templateName ++ "_" ++ strTake hex32 8 ≠ row.templateName ∧
    (create_server_template s tm hex32 sched row).2.2.2 =
      (row.templateName, row.templateName ++ "_" ++ strTake hex32 8) :: tm ∧
    get_template_moid (create_server_template s tm hex32 sched row).2.2.1
      (create_server_template s tm hex32 sched row).2.2.2 row.templateName =
      some s.nextMoid := by
  have hlen8 : (strTake hex32 8).length = 8 := by
    have h32 : hex32.data.length = 32 := hlen
    simp [strTake, String.length_mk, List.length_take, h32]
  have hne : row.templateName ++ "_" ++ strTake hex32 8 ≠ row.templateName := by
    intro habs
    have hl2 := congrArg String.length habs
    have hu : ("_" : String).length = 1 := rfl
    rw [String.length_append, String.length_append, hu, hlen8] at hl2
    omega
  have hhex8 : ∀ c ∈ (strTake hex32 8).data, isHexChar c = true := by
    intro c hc
    exact hhex c (List.take_subset _ _ hc)
  rcases horg : get_org_moid s row.organization with m | om
  · simp only [create_server_template, horg] at hsucc
    simp at hsucc
  · rcases hb : get_policy_moid s "bios.Policy" row.biosPolicy with _ | bm
    · simp only [create_server_template, horg, hb] at hsucc
      simp at hsucc
    · rcases hlan : get_policy_moid s "vnic.LanConnectivityPolicy" row.lanPolicy with _ | lm
      · simp only [create_server_template, horg, hb, hlan] at hsucc
        simp at hsucc
      · rcases hst : get_policy_moid s "storage.StoragePolicy" row.storagePolicy with _ | sm
        · simp only [create_server_template, horg, hb, hlan, hst] at hsucc
          simp at hsucc
        · rcases hs : sched s.nextMoid with _ | _
          · simp only [create_server_template, horg, hb, hlan, hst, hs] at hsucc
            simp at hsucc
          · have hfilter :
                s.templates.filter
                  (fun t => t.name = row.templateName ++ "_" ++ strTake hex32 8) = [] := by
              rw [List.filter_eq_nil_iff]
              intro t ht
              simpa using hfresh t ht
            refine ⟨?_, hlen8, hhex8, hne, ?_, ?_⟩
            · simp [create_server_template, horg, hb, hlan, hst, hs]
            · simp [create_server_template, horg, hb, hlan, hst, hs]
            · simp [create_server_template, horg, hb, hlan, hst, hs, get_template_moid,
                List.lookup_cons, List.filter_append, hfilter]

/-- Witness for C9 at a state carrying the organization and the three
required policies. -/
theorem c9_template_names_uniquified_witness :
    (create_server_template c9WitnessState [] "0123456789abcdef0123456789abcdef"
        (fun _ => true)
        { templateName := "Tpl", organization := "Gruve", targetPlatform := "FIAttached",
          biosPolicy := "B1", bootPolicy := none, lanPolicy := "L1",
          storagePolicy := "S1" }).2.1 =
      [ApiCall.createServerTemplate ("Tpl" ++ "_" ++
        strTake "0123456789abcdef0123456789abcdef" 8)] :=
  (c9_template_names_uniquified c9WitnessState [] "0123456789abcdef0123456789abcdef"
    (fun _ => true)
    { templateName := "Tpl", organization := "Gruve", targetPlatform := "FIAttached",
      biosPolicy := "B1", bootPolicy := none, lanPolicy := "L1", storagePolicy := "S1" }
    (by decide) (by decide) (by decide) (by decide)).1

/-- Deploy never changes the outcome, call trace or endpoint state of
create_server_profile. -/
theorem create_server_profile_deploy_irrelevant (s : ISState)
    (tm : List (String × String)) (manual : List ManualRecord) (sched : Nat → Bool)
    (row : ProfileRow) (d1 d2 : String) :
    ((create_server_profile s tm manual sched { row with deploy := d1 }).1 =
      (create_server_profile s tm manual sched { row with deploy := d2 }).1) ∧
    ((create_server_profile s tm manual sched { row with deploy := d1 }).2.1 =
      (create_server_profile s tm manual sched { row with deploy := d2 }).2.1) ∧
    ((create_server_profile s tm manual sched { row with deploy := d1 }).2.2.1 =
      (create_server_profile s tm manual sched { row with deploy := d2 }).2.2.1) := by
  rcases horg : get_org_moid s row.organization with m | om
  · simp [create_server_profile, horg]
  · rcases htp : get_template_moid s tm
        (match tm.lookup row.templateName with
         | some mapped => mapped
         | none => row.templateName) with _ | tmoid
    · simp [create_server_profile, horg, htp]
    · by_cases hsrv : row.server = ""
      · rcases hs : sched s.nextMoid with _ | _ <;>
          simp [create_server_profile, horg, htp, hsrv, hs]
      · rcases hsm : get_server_moid s ((row.server.splitOn " | ").head?.getD row.server)
          with _ | smoid
        · simp [create_server_profile, horg, htp, hsrv, hsm]
        · rcases hs : sched s.nextMoid with _ | _ <;>
            simp [create_server_profile, horg, htp, hsrv, hsm, hs]

/-- Deploy never changes the outcome, call trace or endpoint state of
create_and_derive_profile. -/
theorem create_and_derive_profile_deploy_irrelevant (s : ISState)
    (tm : List (String × String)) (manual : List ManualRecord) (sched : Nat → Bool)
    (row : ProfileRow) (d1 d2 : String) :
    ((create_and_derive_profile s tm manual sched { row with deploy := d1 }).1 =
      (create_and_derive_profile s tm manual sched { row with deploy := d2 }).1) ∧
    ((create_and_derive_profile s tm manual sched { row with deploy := d1 }).2.1 =
      (create_and_derive_profile s tm manual sched { row with deploy := d2 }).2.1) ∧
    ((create_and_derive_profile s tm manual sched { row with deploy := d1 }).2.2.1 =
      (create_and_derive_profile s tm manual sched { row with deploy := d2 }).2.2.1) := by
  rcases horg : get_org_moid s row.organization with m | om
  · simp [create_and_derive_profile, horg]
  · rcases htp : get_template_moid s tm
        (match tm.lookup row.templateName with
         | some mapped => mapped
         | none => row.templateName) with _ | tmoid
    · simp [create_and_derive_profile, horg, htp]
    · by_cases hsrv : row.server = ""
      · rcases hs0 : sched s.nextMoid with _ | _ <;>
          rcases hs1 : sched (s.nextMoid + 1) with _ | _ <;>
          simp [create_and_derive_profile, horg, htp, hsrv, hs0, hs1]
      · rcases hsm : get_server_moid s ((row.server.splitOn " | SN: ").head?.getD row.server)
          with _ | smoid
        · simp [create_and_derive_profile, horg, htp, hsrv, hsm]
        · rcases hs0 : sched s.nextMoid with _ | _ <;>
            rcases hs1 : sched (s.nextMoid + 1) with _ | _ <;>
            simp [create_and_derive_profile, horg, htp, hsrv, hsm, hs0, hs1]

/-- No run of create_server_profile issues a deploy call. -/
theorem create_server_profile_no_deploy (s : ISState) (tm : List (String × String))
    (manual : List ManualRecord) (sched : Nat → Bool) (row : ProfileRow) (m : Nat) :
    ApiCall.deployServerProfile m ∉ (create_server_profile s tm manual sched row).2.1 := by
  rcases horg : get_org_moid s row.organization with msg | om
  · simp [create_server_profile, horg]
  · rcases htp : get_template_moid s tm
        (match tm.lookup row.templateName with
         | some mapped => mapped
         | none => row.templateName) with _ | tmoid
    · simp [create_server_profile, horg, htp]
    · by_cases hsrv : row.server = ""
      · rcases hs : sched s.nextMoid with _ | _ <;>
          simp [create_server_profile, horg, htp, hsrv, hs]
      · rcases hsm : get_server_moid s ((row.server.splitOn " | ").head?.getD row.server)
          with _ | smoid
        · simp [create_server_profile, horg, htp, hsrv, hsm]
        · rcases hs : sched s.nextMoid with _ | _ <;>
            simp [create_server_profile, horg, htp, hsrv, hsm, hs]

/-- No run of create_and_derive_profile issues a deploy call. -/
theorem create_and_derive_profile_no_deploy (s : ISState) (tm : List (String × String))
    (manual : List ManualRecord) (sched : Nat → Bool) (row : ProfileRow) (m : Nat) :
    ApiCall.deployServerProfile m ∉
      (create_and_derive_profile s tm manual sched row).2.1 := by
  rcases horg : get_org_moid s row.organization with msg | om
  · simp [create_and_derive_profile, horg]
  · rcases htp : get_template_moid s tm
        (match tm.lookup row.templateName with
         | some mapped => mapped
         | none => row.templateName) with _ | tmoid
    · simp [create_and_derive_profile, horg, htp]
    · by_cases hsrv : row.server = ""
      · rcases hs0 : sched s.nextMoid with _ | _ <;>
          rcases hs1 : sched (s.nextMoid + 1) with _ | _ <;>
          simp [create_and_derive_profile, horg, htp, hsrv, hs0, hs1]
      · rcases hsm : get_server_moid s ((row.server.splitOn " | SN: ").head?.getD row.server)
          with _ | smoid
        · simp [create_and_derive_profile, horg, htp, hsrv, hsm]
        · rcases hs0 : sched s.nextMoid with _ | _ <;>
            rcases hs1 : sched (s.nextMoid + 1) with _ | _ <;>
            simp [create_and_derive_profile, horg, htp, hsrv, hsm, hs0, hs1]

/-- C10: in create_server_profile and create_and_derive_profile the
Deploy field never causes a deploy operation: runs differing only in
Deploy ("Yes" versus "No") produce the same outcome, the same API call
sequence and the same endpoint state, and no run of either function
issues any deploy API call. -/
theorem c10_deploy_is_print_only (s : ISState) (tm : List (String × String))
    (manual : List ManualRecord) (sched : Nat → Bool) (row : ProfileRow) :
    ((create_server_profile s tm manual sched { row with deploy := "Yes" }).1 =
      (create_server_profile s tm manual sched { row with deploy := "No" }).1) ∧
    ((create_server_profile s tm manual sched { row with deploy := "Yes" }).2.1 =
      (create_server_profile s tm manual sched { row with deploy := "No" }).2.1) ∧
    ((create_server_profile s tm manual sched { row with deploy := "Yes" }).2.2.1 =
      (create_server_profile s tm manual sched { row with deploy := "No" }).2.2.1) ∧
    ((create_and_derive_profile s tm manual sched { row with deploy := "Yes" }).1 =
      (create_and_derive_profile s tm manual sched { row with deploy := "No" }).1) ∧
    ((create_and_derive_profile s tm manual sched { row with deploy := "Yes" }).2.1 =
      (create_and_derive_profile s tm manual sched { row with deploy := "No" }).2.1) ∧
    ((create_and_derive_profile s tm manual sched { row with deploy := "Yes" }).2.2.1 =
      (create_and_derive_profile s tm manual sched { row with deploy := "No" }).2.2.1) ∧
    (∀ m : Nat, ApiCall.deployServerProfile m ∉
      (create_server_profile s tm manual sched row).2.1) ∧
    (∀ m : Nat, ApiCall.deployServerProfile m ∉
      (create_and_derive_profile s tm manual sched row).2.1) := by
  refine ⟨?_, ?_, ?_, ?_, ?_, ?_, ?_, ?_⟩
  · exact (create_server_profile_deploy_irrelevant s tm manual sched row "Yes" "No").1
  · exact (create_server_profile_deploy_irrelevant s tm manual sched row "Yes" "No").2.1
  · exact (create_server_profile_deploy_irrelevant s tm manual sched row "Yes" "No").2.2
  · exact (create_and_derive_profile_deploy_irrelevant s tm manual sched row "Yes" "No").1
  · exact (create_and_derive_profile_deploy_irrelevant s tm manual sched row "Yes" "No").2.1
  · exact (create_and_derive_profile_deploy_irrelevant s tm manual sched row "Yes" "No").2.2
  · intro m
    exact create_server_profile_no_deploy s tm manual sched row m
  · intro m
    exact create_and_derive_profile_no_deploy s tm manual sched row m

end Intersight
